import Mathlib

/-!
Verification of the octopus-cli proxy core: a shallow embedding of the
routing table (internal/proxy/config_manager.go), the proxy listener's
request handling (internal/proxy/server.go), the forward engine
(proxy/forward.go) and the process lifecycle manager
(internal/process/manager.go), with theorems checking the specified
behaviour of each operation.
-/

namespace Octopus

/-! ## Data model (internal/config/types.go) -/

/-- Embeds config.APIConfig: one upstream target record. -/
structure APIConfig where
  id : String
  name : String
  url : String
  apiKey : String
  isActive : Bool
  timeout : Int
  retryCount : Int
deriving DecidableEq

/-- Embeds config.Settings. -/
structure Settings where
  activeAPI : String
  logFile : String
  configBackup : Bool
deriving DecidableEq

/-- Embeds config.ServerConfig. -/
structure ServerConfig where
  port : Int
  logLevel : String
  daemon : Bool
deriving DecidableEq

/-- Embeds config.Config: server section, ordered target list, settings. -/
structure Config where
  server : ServerConfig
  apis : List APIConfig
  settings : Settings
deriving DecidableEq

/-! ## Routing table (internal/proxy/config_manager.go)

Each mutator of ConfigManager is embedded as a pure function from the
held Config to the new Config paired with the optional error message it
returns; the Go methods mutate `cm.config` under `cm.mu` and return
`error`. -/

/-- Embeds ConfigManager.SwitchAPI: verifies the id exists by scanning the
target list, then sets Settings.ActiveAPI; on an unknown id it returns the
"API not found" error without mutation. -/
def SwitchAPI (cfg : Config) (apiID : String) : Config × Option String :=
  if cfg.apis.any (fun api => api.id == apiID) then
    (⟨cfg.server, cfg.apis,
      ⟨apiID, cfg.settings.logFile, cfg.settings.configBackup⟩⟩, none)
  else
    (cfg, some ("API not found: " ++ apiID))

/-- Embeds ConfigManager.AddAPI: rejects a duplicate id with the
"already exists" error, otherwise appends the new target. -/
def AddAPI (cfg : Config) (api : APIConfig) : Config × Option String :=
  if cfg.apis.any (fun existing => existing.id == api.id) then
    (cfg, some ("API with ID '" ++ api.id ++ "' already exists"))
  else
    (⟨cfg.server, cfg.apis ++ [api], cfg.settings⟩, none)

/-- Embeds ConfigManager.RemoveAPI: rebuilds the target list without the
matching entries, clearing Settings.ActiveAPI when the removed id was the
active one; an unknown id yields the "not found" error with no mutation
(the Go loop only clears the active id inside a matching iteration, and
the rebuilt slice is only assigned after the found check). -/
def RemoveAPI (cfg : Config) (apiID : String) : Config × Option String :=
  if cfg.apis.any (fun api => api.id == apiID) then
    (⟨cfg.server,
      cfg.apis.filter (fun api => !(api.id == apiID)),
      ⟨if cfg.settings.activeAPI == apiID then "" else cfg.settings.activeAPI,
       cfg.settings.logFile, cfg.settings.configBackup⟩⟩, none)
  else
    (cfg, some ("API with ID '" ++ apiID ++ "' not found"))

/-- Embeds ConfigManager.ReloadConfig: when the incoming configuration
names a non-empty active id that none of its own targets carries, it is
rejected with the "not found in new configuration" error and the held
configuration is kept; otherwise the whole configuration is replaced. -/
def ReloadConfig (cfg : Config) (newConfig : Config) : Config × Option String :=
  if newConfig.settings.activeAPI == "" then
    (newConfig, none)
  else if newConfig.apis.any (fun api => api.id == newConfig.settings.activeAPI) then
    (newConfig, none)
  else
    (cfg, some ("active API '" ++ newConfig.settings.activeAPI ++
                "' not found in new configuration"))

/-- Routing-table invariant of the spec: the active id is empty or names a
target present in the table. -/
def activeInvariant (cfg : Config) : Bool :=
  cfg.settings.activeAPI == "" ||
    cfg.apis.any (fun api => api.id == cfg.settings.activeAPI)

/-- One administrative routing-table operation. -/
inductive TableOp where
  | addT (api : APIConfig)
  | removeT (id : String)
  | switchT (id : String)
  | reloadT (newConfig : Config)

/-- Dispatches one operation to the corresponding ConfigManager method. -/
def applyOp (cfg : Config) : TableOp → Config × Option String
  | TableOp.addT api => AddAPI cfg api
  | TableOp.removeT id => RemoveAPI cfg id
  | TableOp.switchT id => SwitchAPI cfg id
  | TableOp.reloadT newConfig => ReloadConfig cfg newConfig

/-- States observed at the return of each call in a sequence of
routing-table operations. -/
def runOps (cfg : Config) : List TableOp → List Config
  | [] => []
  | op :: rest =>
      let next := (applyOp cfg op).1
      next :: runOps next rest

/-! ## Proxy listener (internal/proxy/server.go)

The Server's request path is embedded as pure state passing: the mutable
fields touched by the embedded methods are the shared Config and the two
atomic counters.  Logging is omitted (it writes to a file and returns
nothing). -/

/-- Server state: the shared configuration plus the request and error
counters of Server. -/
structure ServerState where
  config : Config
  requestCount : Int
  errorCount : Int
deriving DecidableEq

/-- Embeds Server.getActiveAPI: an empty active id yields the
"no active API" error; otherwise the first target whose id matches the
active id is returned, or the "not found" error. -/
def getActiveAPI (cfg : Config) : Except String APIConfig :=
  if cfg.settings.activeAPI == "" then
    Except.error "no active API"
  else
    match cfg.apis.find? (fun api => api.id == cfg.settings.activeAPI) with
    | some api => Except.ok api
    | none => Except.error ("active API '" ++ cfg.settings.activeAPI ++ "' not found")

/-- Outcome of Server.handleRequest for one inbound request: either the
request is handed to forwardRequest with the captured target, or an error
response is written and no forwarding is attempted. -/
inductive HandleOutcome where
  | forwarded (api : APIConfig)
  | errorResponse (status : Nat) (body : String)
deriving DecidableEq

/-- Embeds the resolution phase of Server.handleRequest: the request
counter is incremented; when getActiveAPI fails the error counter is
incremented and http.Error writes status 502 (http.StatusBadGateway) with
body `no active API configured: <err>` plus the newline http.Error
appends, with no forwarding attempt; on success the request is forwarded
to the captured target. -/
def handleRequest (s : ServerState) : ServerState × HandleOutcome :=
  match getActiveAPI s.config with
  | Except.error e =>
      (⟨s.config, s.requestCount + 1, s.errorCount + 1⟩,
       HandleOutcome.errorResponse 502 ("no active API configured: " ++ e ++ "\n"))
  | Except.ok api =>
      (⟨s.config, s.requestCount + 1, s.errorCount⟩, HandleOutcome.forwarded api)

/-- Embeds Server.UpdateConfig: the source acquires the mutex and returns
nil without touching any server state (its body is the TODO stub
"Implement config update logic ... For now, just accept any config
update"). -/
def UpdateConfig (s : ServerState) (_apiConfig : APIConfig) : ServerState × Option String :=
  (s, none)

/-! ## Forward engine (proxy/forward.go)

ForwardRequest is embedded over an oracle `upstream : Nat → AttemptResult`
giving the outcome the HTTP client produces for each attempt index.  The
context is modelled as never cancelled and request construction as never
failing (neither path is exercised by the claims); the atomic statistics
counters are omitted.  `attempts` counts the loop iterations executed,
each of which performs one outbound call. -/

/-- Response data the engine inspects and returns. -/
structure HttpResponse where
  statusCode : Nat
  body : String
deriving DecidableEq

/-- Outcome of one client.Do call: a response or a transport error. -/
inductive AttemptResult where
  | success (resp : HttpResponse)
  | failure (errMsg : String)
deriving DecidableEq

/-- Checks whether `pat` starts the character list `l`. -/
def charsStartWith : List Char → List Char → Bool
  | _, [] => true
  | [], _ :: _ => false
  | c :: cs, p :: ps => c == p && charsStartWith cs ps

/-- Checks whether `pat` occurs inside the character list `l`. -/
def charsContain (pat : List Char) : List Char → Bool
  | [] => charsStartWith [] pat
  | c :: cs => charsStartWith (c :: cs) pat || charsContain pat cs

/-- Embeds strings.Contains. -/
def containsSubstring (s pat : String) : Bool :=
  charsContain pat.data s.data

/-- Transient transport-error substrings of ForwardEngine.shouldRetry. -/
def networkErrors : List String :=
  ["connection refused", "connection reset", "i/o timeout",
   "deadline exceeded", "no such host", "network unreachable"]

/-- Retryable HTTP status codes of ForwardEngine.shouldRetry. -/
def retryableStatusCodes : List Nat := [500, 502, 503, 504]

/-- Embeds ForwardEngine.shouldRetry: a non-nil error is retried exactly
when its text contains a known transient substring; otherwise the status
code is retried exactly when it is one of the retryable codes. -/
def shouldRetry (statusCode : Nat) (err : Option String) : Bool :=
  match err with
  | some msg => networkErrors.any (fun netErr => containsSubstring msg netErr)
  | none => retryableStatusCodes.any (fun code => statusCode == code)

/-- Error classification of ForwardRequest: exhausting the loop (or
breaking out on a non-retryable transport error) returns
`max retries exceeded: %w` wrapping the last failure, which is nil when
the loop body never ran. -/
inductive ForwardError where
  | maxRetriesExceeded (lastErr : Option String)
deriving DecidableEq

deriving instance DecidableEq for Except

/-- Result of ForwardRequest together with the number of attempts made. -/
structure ForwardOutcome where
  result : Except ForwardError HttpResponse
  attempts : Nat
deriving DecidableEq

/-- The retry loop of ForwardEngine.ForwardRequest: `attempt` is the index
of the next attempt (and the count already made), `fuel` the remaining
iterations of `for attempt < retryCount`.  A retryable transport error or
retryable status continues the loop recording the failure; a
non-retryable transport error breaks out to the max-retries error; a
non-retryable status returns the response. -/
def forwardLoop (upstream : Nat → AttemptResult) (attempt : Nat) (fuel : Nat)
    (lastErr : Option String) : ForwardOutcome :=
  match fuel with
  | 0 => ⟨Except.error (ForwardError.maxRetriesExceeded lastErr), attempt⟩
  | fuel2 + 1 =>
    match upstream attempt with
    | AttemptResult.failure msg =>
        if shouldRetry 0 (some msg) then
          forwardLoop upstream (attempt + 1) fuel2 (some msg)
        else
          ⟨Except.error (ForwardError.maxRetriesExceeded (some msg)), attempt + 1⟩
    | AttemptResult.success resp =>
        if shouldRetry resp.statusCode none then
          forwardLoop upstream (attempt + 1) fuel2
            (some ("received retryable status code: " ++ toString resp.statusCode))
        else
          ⟨Except.ok resp, attempt + 1⟩

/-- Embeds ForwardEngine.ForwardRequest: the loop runs
`for attempt := 0; attempt < f.retryCount; attempt++`, hence
`max(retryCount, 0)` iterations at most. -/
def ForwardRequest (retryCount : Int) (upstream : Nat → AttemptResult) : ForwardOutcome :=
  forwardLoop upstream 0 retryCount.toNat none

/-- NewForwardEngine stores apiConfig.RetryCount unchanged as the loop
bound; this composes construction with ForwardRequest for one target. -/
def ForwardRequestFor (api : APIConfig) (upstream : Nat → AttemptResult) : ForwardOutcome :=
  ForwardRequest api.retryCount upstream

/-! ## Per-attempt timeout (proxy/forward.go NewForwardEngine and
internal/proxy/server.go forwardRequest)

Both compute `time.Duration(api.Timeout) * time.Second` in int64
nanoseconds — wrapping on overflow as Go signed arithmetic does — and
substitute 30 seconds when the product is not positive. -/

/-- `time.Second` in nanoseconds. -/
def second : Int := 1000000000

/-- Reduces an integer to the int64 value Go's wrapping arithmetic
produces. -/
def int64wrap (x : Int) : Int :=
  (x + 9223372036854775808) % 18446744073709551616 - 9223372036854775808

/-- Embeds the timeout computation shared by NewForwardEngine and
Server.forwardRequest: the configured seconds value (an int64) times
time.Second with int64 wrap, replaced by 30s when not positive. -/
def computeTimeout (timeoutSeconds : Int) : Int :=
  let t := int64wrap (timeoutSeconds * second)
  if t ≤ 0 then 30 * second else t

/-- Per-attempt timeout NewForwardEngine derives from a target. -/
def NewForwardEngineTimeout (api : APIConfig) : Int :=
  computeTimeout api.timeout

/-! ## Lifecycle manager (internal/process/manager.go)

The PID file is the only state; it is embedded as missing, present but
unreadable, or present with content.  Process liveness (signal 0 through
os.FindProcess/Signal) is an oracle `alive : Int → Bool`; on Unix
os.FindProcess itself never fails, so the liveness check is the signal. -/

/-- Observable state of the PID file. -/
inductive PIDFileState where
  | missing
  | unreadable
  | content (text : String)
deriving DecidableEq

/-- Error classes the embedded file operations distinguish. -/
inductive FileError where
  | notExist
  | ioError
  | invalidPID
deriving DecidableEq

/-- Parses a digit run, the numeric core of strconv.Atoi. -/
def parseDigits : List Char → Nat → Option Nat
  | [], acc => some acc
  | c :: cs, acc =>
      if c.isDigit then parseDigits cs (acc * 10 + (c.toNat - 48)) else none

/-- Embeds strconv.Atoi: an optional sign followed by at least one digit,
rejecting anything else and values outside int64. -/
def atoi (s : String) : Option Int :=
  match s.data with
  | [] => none
  | '-' :: rest =>
      match rest with
      | [] => none
      | _ :: _ => (parseDigits rest 0).bind fun n =>
          if n ≤ 9223372036854775808 then some (-(n : Int)) else none
  | '+' :: rest =>
      match rest with
      | [] => none
      | _ :: _ => (parseDigits rest 0).bind fun n =>
          if n ≤ 9223372036854775807 then some (n : Int) else none
  | c :: cs => (parseDigits (c :: cs) 0).bind fun n =>
      if n ≤ 9223372036854775807 then some (n : Int) else none

/-- Embeds Manager.readPIDFile: os.ReadFile then strconv.Atoi, each
failure surfaced as an error. -/
def readPIDFile (f : PIDFileState) : Except FileError Int :=
  match f with
  | PIDFileState.missing => Except.error FileError.notExist
  | PIDFileState.unreadable => Except.error FileError.ioError
  | PIDFileState.content text =>
      match atoi text with
      | some pid => Except.ok pid
      | none => Except.error FileError.invalidPID

/-- Embeds os.Remove on the PID file path: removing a missing file is the
"does not exist" error; otherwise the file is gone and the call
succeeds. -/
def osRemove (f : PIDFileState) : Except FileError PIDFileState :=
  match f with
  | PIDFileState.missing => Except.error FileError.notExist
  | PIDFileState.unreadable => Except.ok PIDFileState.missing
  | PIDFileState.content _ => Except.ok PIDFileState.missing

/-- Embeds Manager.CleanupPIDFile, which is exactly os.Remove(m.pidFile). -/
def CleanupPIDFile (f : PIDFileState) : Except FileError PIDFileState :=
  osRemove f

/-- Embeds process.ProcessStatus restricted to the fields GetDaemonStatus
computes for real (StartTime and Uptime are placeholder constants in the
source). -/
structure ProcessStatus where
  isRunning : Bool
  pid : Int
deriving DecidableEq

/-- Embeds Manager.GetDaemonStatus: a failed read reports not running with
the file untouched and a nil error; a live PID reports running with that
PID; a dead PID deletes the stale file (CleanupPIDFile, result ignored)
and reports not running.  Every path returns a nil error. -/
def GetDaemonStatus (f : PIDFileState) (alive : Int → Bool) :
    ProcessStatus × PIDFileState × Option FileError :=
  match readPIDFile f with
  | Except.error _ => (⟨false, 0⟩, f, none)
  | Except.ok pid =>
      if alive pid then
        (⟨true, pid⟩, f, none)
      else
        match osRemove f with
        | Except.ok f2 => (⟨false, 0⟩, f2, none)
        | Except.error _ => (⟨false, 0⟩, f, none)

/-! ## Demonstration values used by witnesses -/

/-- Sample server section. -/
def demoServer : ServerConfig := ⟨8080, "info", true⟩

/-- Sample target a. -/
def apiA : APIConfig := ⟨"a", "A", "http://upstream-a", "", false, 30, 3⟩

/-- Sample target b. -/
def apiB : APIConfig := ⟨"b", "B", "http://upstream-b", "", false, 30, 3⟩

/-- Sample configuration with targets a and b, a active. -/
def demoConfig : Config := ⟨demoServer, [apiA, apiB], ⟨"a", "", false⟩⟩

/-- Sample configuration with no targets and no active id. -/
def demoEmpty : Config := ⟨demoServer, [], ⟨"", "", false⟩⟩

/-! ## Theorems -/

/-- Helper: each single routing-table operation preserves the
active-id-exists invariant. -/
theorem applyOp_preserves_activeInvariant (cfg : Config) (op : TableOp)
    (hinv : activeInvariant cfg = true) :
    activeInvariant ((applyOp cfg op).1) = true := by
  cases op with
  | addT api =>
      simp only [applyOp, AddAPI]
      split
      · exact hinv
      · simp only [activeInvariant, List.any_append] at hinv ⊢
        rcases Bool.or_eq_true_iff.mp hinv with h | h
        · simp [h]
        · simp [h]
  | removeT id =>
      simp only [applyOp, RemoveAPI]
      split
      · next hfound =>
          simp only [activeInvariant] at hinv ⊢
          by_cases hact : cfg.settings.activeAPI == id
          · simp [hact]
          · simp only [hact, Bool.false_eq_true, if_false]
            rcases Bool.or_eq_true_iff.mp hinv with h | h
            · simp [h]
            · rcases List.any_eq_true.mp h with ⟨x, hxmem, hx⟩
              have hxid : x.id = cfg.settings.activeAPI := eq_of_beq hx
              have hact2 : (cfg.settings.activeAPI == id) = false := by
                simpa using hact
              have hne : (x.id == id) = false := by
                rw [hxid]
                exact hact2
              refine Bool.or_eq_true_iff.mpr (Or.inr (List.any_eq_true.mpr ⟨x, ?_, hx⟩))
              exact List.mem_filter.mpr ⟨hxmem, by simp [hne]⟩
      · exact hinv
  | switchT id =>
      simp only [applyOp, SwitchAPI]
      split
      · next h => simp [activeInvariant, h]
      · exact hinv
  | reloadT newConfig =>
      simp only [applyOp, ReloadConfig]
      split
      · next h => simp [activeInvariant, h]
      · split
        · next h => simp [activeInvariant, h]
        · exact hinv

/-- C3: for every sequence of Add/Remove/Switch/Reload operations applied
to a routing table whose initial state satisfies the invariant, at the
return of every call either the active id is empty or it names the id of
a target present in the table. -/
theorem routingInvariant_preserved (ops : List TableOp) (cfg : Config)
    (hinv : activeInvariant cfg = true) :
    ∀ c ∈ runOps cfg ops, activeInvariant c = true := by
  induction ops generalizing cfg with
  | nil =>
      intro c hc
      simp [runOps] at hc
  | cons op rest ih =>
      intro c hc
      simp only [runOps, List.mem_cons] at hc
      rcases hc with rfl | hc
      · exact applyOp_preserves_activeInvariant cfg op hinv
      · exact ih ((applyOp cfg op).1)
          (applyOp_preserves_activeInvariant cfg op hinv) c hc

/-- Witness for C3: a concrete add/switch/remove sequence from the empty
table, checked at its intermediate state. -/
theorem routingInvariant_preserved_witness :
    activeInvariant ⟨demoServer, [apiA], ⟨"a", "", false⟩⟩ = true :=
  routingInvariant_preserved
    [TableOp.addT apiA, TableOp.switchT "a", TableOp.removeT "a"]
    demoEmpty (by decide) _ (by decide)

/-- C9: every routing-table mutator (Switch, Add, Remove, Reload) is
atomic on error — whenever one of them returns a non-nil error, the held
set of targets and active id are exactly what they were before the
call. -/
theorem mutators_atomic_on_error (cfg : Config) (op : TableOp) (e : String)
    (herr : (applyOp cfg op).2 = some e) : (applyOp cfg op).1 = cfg := by
  cases op with
  | addT api =>
      simp only [applyOp, AddAPI] at herr ⊢
      split at herr
      · next h => simp [h]
      · simp at herr
  | removeT id =>
      simp only [applyOp, RemoveAPI] at herr ⊢
      split at herr
      · simp at herr
      · next h => simp [h]
  | switchT id =>
      simp only [applyOp, SwitchAPI] at herr ⊢
      split at herr
      · simp at herr
      · next h => simp [h]
  | reloadT newConfig =>
      simp only [applyOp, ReloadConfig] at herr ⊢
      split at herr
      · simp at herr
      · next h1 =>
          split at herr
          · simp at herr
          · next h2 => simp [h1, h2]

/-- Witness for C9: switching to an unknown id fails and leaves the
sample configuration untouched. -/
theorem mutators_atomic_on_error_witness :
    (applyOp demoConfig (TableOp.switchT "zzz")).2 = some "API not found: zzz" ∧
    (applyOp demoConfig (TableOp.switchT "zzz")).1 = demoConfig :=
  ⟨by decide,
   mutators_atomic_on_error demoConfig (TableOp.switchT "zzz")
     "API not found: zzz" (by decide)⟩

/-- Changed record for target a pointing at a different upstream URL. -/
def apiA2 : APIConfig := ⟨"a", "A", "http://upstream-new", "", false, 30, 3⟩

/-- C2: Server.UpdateConfig accepts and returns nil but applies nothing —
on a server actively routing to target a, updating target a's URL leaves
every subsequent request forwarding to the old record, contradicting the
hot-swap behaviour: the source body is a TODO stub. -/
theorem updateConfig_does_not_apply_target :
    UpdateConfig ⟨demoConfig, 0, 0⟩ apiA2 = (⟨demoConfig, 0, 0⟩, none) ∧
    (handleRequest (UpdateConfig ⟨demoConfig, 0, 0⟩ apiA2).1).2 =
      HandleOutcome.forwarded apiA ∧
    apiA.url ≠ apiA2.url := by decide

/-- C5: removing an unknown id yields the not-found error; removing the
active id succeeds, clears the active id, and afterwards every request
resolves to a 502 error response whose body contains "no active API",
with no forwarding attempt (the outcome is an error response, which
handleRequest writes before any forwarding), until a switch to a
non-empty existing id makes requests forward again. -/
theorem removeActive_failsClosed (cfg : Config) (apiID : String) :
    ((cfg.apis.any fun api => api.id == apiID) = false →
      RemoveAPI cfg apiID = (cfg, some ("API with ID '" ++ apiID ++ "' not found"))) ∧
    ((cfg.apis.any fun api => api.id == apiID) = true →
     cfg.settings.activeAPI = apiID →
      (RemoveAPI cfg apiID).2 = none ∧
      ((RemoveAPI cfg apiID).1).settings.activeAPI = "" ∧
      (∀ rc ec : Int, ∃ body : String,
        handleRequest ⟨(RemoveAPI cfg apiID).1, rc, ec⟩ =
          (⟨(RemoveAPI cfg apiID).1, rc + 1, ec + 1⟩,
           HandleOutcome.errorResponse 502 body) ∧
        containsSubstring body "no active API" = true) ∧
      (∀ id2 cfg2, id2 ≠ "" →
        SwitchAPI (RemoveAPI cfg apiID).1 id2 = (cfg2, none) →
        ∃ api, (handleRequest ⟨cfg2, 0, 0⟩).2 = HandleOutcome.forwarded api ∧
          api.id = id2)) := by
  constructor
  · intro hnot
    simp [RemoveAPI, hnot]
  · intro hfound hact
    subst hact
    have hrm : RemoveAPI cfg cfg.settings.activeAPI =
        (⟨cfg.server,
          cfg.apis.filter fun api => !(api.id == cfg.settings.activeAPI),
          ⟨"", cfg.settings.logFile, cfg.settings.configBackup⟩⟩, none) := by
      simp [RemoveAPI, hfound]
    rw [hrm]
    refine ⟨rfl, rfl, ?_, ?_⟩
    · intro rc ec
      exact ⟨"no active API configured: " ++ "no active API" ++ "\n", rfl, by decide⟩
    · intro id2 cfg2 hne hsw
      simp only [SwitchAPI] at hsw
      split at hsw
      · next hany =>
          have hc2 : cfg2 =
              ⟨cfg.server,
               cfg.apis.filter fun api => !(api.id == cfg.settings.activeAPI),
               ⟨id2, cfg.settings.logFile, cfg.settings.configBackup⟩⟩ :=
            ((Prod.ext_iff.mp hsw).1).symm
          subst hc2
          rcases List.any_eq_true.mp hany with ⟨x, hxmem, hx⟩
          have hsome :
              ((cfg.apis.filter fun api => !(api.id == cfg.settings.activeAPI)).find?
                 fun api => api.id == id2).isSome := by
            exact List.find?_isSome.mpr ⟨x, hxmem, hx⟩
          obtain ⟨api, hfind⟩ := Option.isSome_iff_exists.mp hsome
          have hp : (api.id == id2) = true := by
            simpa using List.find?_some hfind
          have hne2 : (id2 == "") = false := by
            simpa using hne
          refine ⟨api, ?_, eq_of_beq hp⟩
          simp [handleRequest, getActiveAPI, hne2, hfind]
      · simp at hsw

/-- Witness for C5: removing an unknown id from the sample configuration
fails with not-found, and removing the active id a clears the active
id. -/
theorem removeActive_failsClosed_witness :
    (RemoveAPI demoConfig "zzz").2 = some "API with ID 'zzz' not found" ∧
    ((RemoveAPI demoConfig "a").1).settings.activeAPI = "" := by
  constructor
  · rw [(removeActive_failsClosed demoConfig "zzz").1 (by decide)]
    decide
  · exact ((removeActive_failsClosed demoConfig "a").2 (by decide) rfl).2.1

/-- Helper: the retry loop cannot make more attempts than it has fuel. -/
theorem forwardLoop_attempts_le (upstream : Nat → AttemptResult) :
    ∀ (fuel attempt : Nat) (lastErr : Option String),
      (forwardLoop upstream attempt fuel lastErr).attempts ≤ attempt + fuel := by
  intro fuel
  induction fuel with
  | zero =>
      intro attempt lastErr
      simp [forwardLoop]
  | succ fuel2 ih =>
      intro attempt lastErr
      simp only [forwardLoop]
      split
      · split
        · refine le_trans (ih (attempt + 1) _) ?_
          omega
        · show attempt + 1 ≤ attempt + (fuel2 + 1)
          omega
      · split
        · refine le_trans (ih (attempt + 1) _) ?_
          omega
        · show attempt + 1 ≤ attempt + (fuel2 + 1)
          omega

/-- Helper: the retry loop never reports fewer attempts than were already
made when it was entered. -/
theorem forwardLoop_attempts_ge (upstream : Nat → AttemptResult) :
    ∀ (fuel attempt : Nat) (lastErr : Option String),
      attempt ≤ (forwardLoop upstream attempt fuel lastErr).attempts := by
  intro fuel
  induction fuel with
  | zero =>
      intro attempt lastErr
      simp [forwardLoop]
  | succ fuel2 ih =>
      intro attempt lastErr
      simp only [forwardLoop]
      split
      · split
        · exact le_trans (by omega) (ih (attempt + 1) _)
        · show attempt ≤ attempt + 1
          omega
      · split
        · exact le_trans (by omega) (ih (attempt + 1) _)
        · show attempt ≤ attempt + 1
          omega

/-- Helper: with fuel remaining, the retry loop makes at least one more
attempt. -/
theorem forwardLoop_attempts_ge_succ (upstream : Nat → AttemptResult)
    (fuel2 attempt : Nat) (lastErr : Option String) :
    attempt + 1 ≤ (forwardLoop upstream attempt (fuel2 + 1) lastErr).attempts := by
  simp only [forwardLoop]
  split
  · split
    · exact forwardLoop_attempts_ge upstream fuel2 (attempt + 1) _
    · show attempt + 1 ≤ attempt + 1
      omega
  · split
    · exact forwardLoop_attempts_ge upstream fuel2 (attempt + 1) _
    · show attempt + 1 ≤ attempt + 1
      omega


/-- Target whose retry count is zero, as the zero value of
config.APIConfig leaves it. -/
def zeroRetryAPI : APIConfig := ⟨"z", "Z", "http://upstream-z", "", false, 30, 0⟩

/-- Target configured with retryCount = 3. -/
def threeRetryAPI : APIConfig := ⟨"t", "T", "http://upstream-t", "", false, 30, 3⟩

/-- Upstream that answers every attempt with status 500. -/
def always500 : Nat → AttemptResult := fun _ => AttemptResult.success ⟨500, "err"⟩

/-- Upstream that answers every attempt with status 404. -/
def always404 : Nat → AttemptResult := fun _ => AttemptResult.success ⟨404, "nf"⟩

/-- C1 counterexample: the claim that ForwardRequest always performs at
least one attempt fails — NewForwardEngine stores retryCount without the
max(.,1) clamp, so a target with retryCount = 0 gets zero attempts and an
error wrapping no failure. -/
theorem forwardRequest_zero_attempts_cex :
    (ForwardRequestFor zeroRetryAPI always500).attempts = 0 ∧
    ¬ 1 ≤ (ForwardRequestFor zeroRetryAPI always500).attempts ∧
    (ForwardRequestFor zeroRetryAPI always500).result =
      Except.error (ForwardError.maxRetriesExceeded none) := by decide

/-- C1 (amended): ForwardRequest performs at most target.retryCount
attempts — zero attempts when retryCount is not positive — and for a
target with retryCount = 3 against an upstream that always returns
status 500 it fails after exactly 3 attempts with the
"max retries exceeded" error wrapping the last failure. -/
theorem forwardRequestFor_retry_boundary (api : APIConfig)
    (upstream : Nat → AttemptResult) :
    (ForwardRequestFor api upstream).attempts ≤ api.retryCount.toNat ∧
    (api.retryCount ≤ 0 → (ForwardRequestFor api upstream).attempts = 0) ∧
    (api.retryCount = 3 →
     (∀ i, ∃ b, upstream i = AttemptResult.success ⟨500, b⟩) →
      ForwardRequestFor api upstream =
        ⟨Except.error (ForwardError.maxRetriesExceeded
            (some "received retryable status code: 500")), 3⟩) := by
  refine ⟨?_, ?_, ?_⟩
  · simpa using forwardLoop_attempts_le upstream api.retryCount.toNat 0 none
  · intro hle
    have h0 : api.retryCount.toNat = 0 := Int.toNat_eq_zero.mpr hle
    simp [ForwardRequestFor, ForwardRequest, h0, forwardLoop]
  · intro h3 hup
    obtain ⟨b0, e0⟩ := hup 0
    obtain ⟨b1, e1⟩ := hup 1
    obtain ⟨b2, e2⟩ := hup 2
    have hsr : shouldRetry 500 none = true := by decide
    show forwardLoop upstream 0 api.retryCount.toNat none = _
    rw [h3]
    rw [show ((3 : Int).toNat) = 2 + 1 from rfl]
    rw [show (forwardLoop upstream 0 (2 + 1) none =
          forwardLoop upstream 1 2 (some "received retryable status code: 500")) from by
      simp only [forwardLoop, e0]
      rw [if_pos hsr]]
    rw [show ((2 : Nat)) = 1 + 1 from rfl]
    rw [show (forwardLoop upstream 1 (1 + 1) (some "received retryable status code: 500") =
          forwardLoop upstream 2 1 (some "received retryable status code: 500")) from by
      simp only [forwardLoop, e1]
      rw [if_pos hsr]]
    rw [show ((1 : Nat)) = 0 + 1 from rfl]
    rw [show (forwardLoop upstream 2 (0 + 1) (some "received retryable status code: 500") =
          (⟨Except.error (ForwardError.maxRetriesExceeded
              (some "received retryable status code: 500")), 3⟩ : ForwardOutcome)) from by
      simp only [forwardLoop, e2]
      rw [if_pos hsr]
      decide]

/-- Witness for C1 (amended): retryCount = 3 against the always-500
upstream fails after exactly 3 attempts. -/
theorem forwardRequestFor_retry_boundary_witness :
    ForwardRequestFor threeRetryAPI always500 =
      ⟨Except.error (ForwardError.maxRetriesExceeded
          (some "received retryable status code: 500")), 3⟩ :=
  (forwardRequestFor_retry_boundary threeRetryAPI always500).2.2 rfl
    (fun _ => ⟨"err", rfl⟩)

/-- C4: shouldRetry on a response retries exactly the statuses 500, 502,
503, 504; at whatever attempt the loop has reached, a response with a
non-retryable status is final — the loop stops there and returns that
response with no further attempt — so in particular ForwardRequest
returns a first-attempt non-retryable response after exactly one
attempt, while a first attempt with a retryable status is followed by a
further attempt when the retry budget allows one. -/
theorem forward_status_classification (retryCount : Int)
    (upstream : Nat → AttemptResult) (resp : HttpResponse) :
    (∀ s : Nat, shouldRetry s none = true ↔ (s = 500 ∨ s = 502 ∨ s = 503 ∨ s = 504)) ∧
    (∀ (attempt fuel2 : Nat) (lastErr : Option String) (resp2 : HttpResponse),
      upstream attempt = AttemptResult.success resp2 →
      shouldRetry resp2.statusCode none = false →
        forwardLoop upstream attempt (fuel2 + 1) lastErr =
          ⟨Except.ok resp2, attempt + 1⟩) ∧
    (upstream 0 = AttemptResult.success resp →
      (shouldRetry resp.statusCode none = false → 1 ≤ retryCount →
        ForwardRequest retryCount upstream = ⟨Except.ok resp, 1⟩) ∧
      (shouldRetry resp.statusCode none = true → 2 ≤ retryCount →
        2 ≤ (ForwardRequest retryCount upstream).attempts)) := by
  refine ⟨?_, ?_, ?_⟩
  · intro s
    simp [shouldRetry, retryableStatusCodes]
  · intro attempt fuel2 lastErr resp2 hat hfin
    simp only [forwardLoop, hat]
    rw [if_neg (by simp [hfin])]
  · intro hup
    constructor
    · intro hfinal hrc
      have h1 : ∃ k, retryCount.toNat = k + 1 := ⟨retryCount.toNat - 1, by omega⟩
      obtain ⟨k, hk⟩ := h1
      show forwardLoop upstream 0 retryCount.toNat none = _
      rw [hk]
      simp only [forwardLoop, hup]
      rw [if_neg (by simp [hfinal])]
    · intro hretry hrc
      have h2 : ∃ k, retryCount.toNat = (k + 1) + 1 := ⟨retryCount.toNat - 2, by omega⟩
      obtain ⟨k, hk⟩ := h2
      show 2 ≤ (forwardLoop upstream 0 retryCount.toNat none).attempts
      rw [hk]
      have hstep : forwardLoop upstream 0 ((k + 1) + 1) none =
          forwardLoop upstream 1 (k + 1)
            (some ("received retryable status code: " ++ toString resp.statusCode)) := by
        simp only [forwardLoop, hup]
        rw [if_pos hretry]
      rw [hstep]
      have := forwardLoop_attempts_ge_succ upstream k 1
        (some ("received retryable status code: " ++ toString resp.statusCode))
      omega

/-- Witness for C4: a single 404 response is returned immediately after
one attempt. -/
theorem forward_status_classification_witness :
    ForwardRequest 1 always404 = ⟨Except.ok ⟨404, "nf"⟩, 1⟩ :=
  ((forward_status_classification 1 always404 ⟨404, "nf"⟩).2.2 rfl).1
    (by decide) (by decide)


/-- Target whose configured timeout of 10^10 seconds overflows the int64
nanosecond conversion. -/
def hugeTimeoutAPI : APIConfig := ⟨"h", "H", "http://upstream-h", "", false, 10000000000, 3⟩

/-- C7 counterexample: a positive configured timeout whose conversion to
nanoseconds overflows int64 silently falls back to the 30-second default
instead of the configured value, so the claimed equality fails for this
positive timeout. -/
theorem perAttempt_timeout_overflow_cex :
    0 < hugeTimeoutAPI.timeout ∧
    NewForwardEngineTimeout hugeTimeoutAPI = 30 * second ∧
    NewForwardEngineTimeout hugeTimeoutAPI ≠ hugeTimeoutAPI.timeout * second := by decide

/-- C7 (amended): the per-attempt timeout equals target.timeout seconds
whenever that value is positive and small enough that the int64
nanosecond conversion does not overflow (at most 9223372036 seconds), and
equals the 30-second default whenever target.timeout is zero or negative
within the symmetric non-overflowing range. -/
theorem perAttempt_timeout_spec (api : APIConfig) :
    (0 < api.timeout → api.timeout ≤ 9223372036 →
      NewForwardEngineTimeout api = api.timeout * second) ∧
    (-9223372036 ≤ api.timeout → api.timeout ≤ 0 →
      NewForwardEngineTimeout api = 30 * second) := by
  constructor
  · intro h1 h2
    have hhigh : api.timeout * 1000000000 ≤ 9223372036000000000 := by
      have := mul_le_mul_of_nonneg_right h2 (show (0:Int) ≤ 1000000000 by norm_num)
      simpa using this
    have hlow : (1000000000 : Int) ≤ api.timeout * 1000000000 := by
      have := mul_le_mul_of_nonneg_right
        (show (1:Int) ≤ api.timeout from h1) (show (0:Int) ≤ 1000000000 by norm_num)
      simpa using this
    have hw : int64wrap (api.timeout * second) = api.timeout * second := by
      simp only [int64wrap, second]
      omega
    simp only [NewForwardEngineTimeout, computeTimeout, hw]
    rw [if_neg]
    simp only [second] at hlow ⊢
    omega
  · intro h1 h2
    have hlow : (-9223372036000000000 : Int) ≤ api.timeout * 1000000000 := by
      have := mul_le_mul_of_nonneg_right h1 (show (0:Int) ≤ 1000000000 by norm_num)
      simpa using this
    have hhigh : api.timeout * 1000000000 ≤ 0 := by
      have := mul_le_mul_of_nonneg_right h2 (show (0:Int) ≤ 1000000000 by norm_num)
      simpa using this
    have hw : int64wrap (api.timeout * second) = api.timeout * second := by
      simp only [int64wrap, second]
      omega
    simp only [NewForwardEngineTimeout, computeTimeout, hw]
    rw [if_pos]
    simp only [second] at hhigh ⊢
    omega

/-- Witness for C7 (amended): a 5-second configured timeout yields a
5-second per-attempt timeout, and a zero timeout yields the default. -/
theorem perAttempt_timeout_spec_witness :
    NewForwardEngineTimeout ⟨"w", "W", "http://upstream-w", "", false, 5, 1⟩ = 5 * second ∧
    NewForwardEngineTimeout ⟨"w0", "W0", "http://upstream-w", "", false, 0, 1⟩ = 30 * second :=
  ⟨(perAttempt_timeout_spec ⟨"w", "W", "http://upstream-w", "", false, 5, 1⟩).1
      (by decide) (by decide),
   (perAttempt_timeout_spec ⟨"w0", "W0", "http://upstream-w", "", false, 0, 1⟩).2
      (by decide) (by decide)⟩

/-- C6: GetDaemonStatus reports not-running when no PID record exists;
when a record with a parseable PID exists but the no-op liveness signal
fails, it deletes the stale record and reports not-running; when the
signal succeeds, it reports running with the recorded PID. -/
theorem getDaemonStatus_spec (f : PIDFileState) (alive : Int → Bool) :
    (f = PIDFileState.missing →
      GetDaemonStatus f alive = (⟨false, 0⟩, f, none)) ∧
    (∀ pid : Int, readPIDFile f = Except.ok pid → alive pid = false →
      GetDaemonStatus f alive = (⟨false, 0⟩, PIDFileState.missing, none)) ∧
    (∀ pid : Int, readPIDFile f = Except.ok pid → alive pid = true →
      GetDaemonStatus f alive = (⟨true, pid⟩, f, none)) := by
  refine ⟨?_, ?_, ?_⟩
  · intro h
    subst h
    rfl
  · intro pid hread hdead
    cases f with
    | missing => simp [readPIDFile] at hread
    | unreadable => simp [readPIDFile] at hread
    | content text =>
        simp [GetDaemonStatus, hread, hdead, osRemove]
  · intro pid hread halive
    simp [GetDaemonStatus, hread, halive]

/-- Witness for C6: a record naming dead process 42 is deleted and
reported not-running. -/
theorem getDaemonStatus_spec_witness :
    GetDaemonStatus (PIDFileState.content "42") (fun _ => false) =
      (⟨false, 0⟩, PIDFileState.missing, none) :=
  (getDaemonStatus_spec (PIDFileState.content "42") (fun _ => false)).2.1
    42 (by decide) rfl

/-- C8: CleanupPIDFile with no PID record returns the does-not-exist
error rather than success; with a record present it deletes the record
and succeeds. -/
theorem cleanupPIDFile_spec (f : PIDFileState) :
    (f = PIDFileState.missing →
      CleanupPIDFile f = Except.error FileError.notExist) ∧
    (f ≠ PIDFileState.missing →
      CleanupPIDFile f = Except.ok PIDFileState.missing) := by
  constructor
  · intro h
    subst h
    rfl
  · intro h
    cases f with
    | missing => exact absurd rfl h
    | unreadable => rfl
    | content text => rfl

/-- Witness for C8: cleanup of a missing record errors, cleanup of an
existing record deletes it. -/
theorem cleanupPIDFile_spec_witness :
    CleanupPIDFile PIDFileState.missing = Except.error FileError.notExist ∧
    CleanupPIDFile (PIDFileState.content "12345") = Except.ok PIDFileState.missing :=
  ⟨(cleanupPIDFile_spec PIDFileState.missing).1 rfl,
   (cleanupPIDFile_spec (PIDFileState.content "12345")).2 (by decide)⟩

/-- C10: GetDaemonStatus returns a nil error on every PID-file state, and
on every failed read — missing file, unreadable file, or content that is
not a valid integer — it reports not-running with PID 0 instead of
propagating the failure. -/
theorem getDaemonStatus_never_errors (f : PIDFileState) (alive : Int → Bool) :
    (GetDaemonStatus f alive).2.2 = none ∧
    (∀ e : FileError, readPIDFile f = Except.error e →
      (GetDaemonStatus f alive).1 = ⟨false, 0⟩) := by
  constructor
  · cases hr : readPIDFile f with
    | error e => simp [GetDaemonStatus, hr]
    | ok pid =>
        by_cases ha : alive pid = true
        · simp [GetDaemonStatus, hr, ha]
        · cases f with
          | missing => simp [readPIDFile] at hr
          | unreadable => simp [readPIDFile] at hr
          | content text =>
              simp [GetDaemonStatus, hr, osRemove, ha]
  · intro e hre
    simp [GetDaemonStatus, hre]

/-- Witness for C10: a record whose content is not a number yields
not-running with PID 0 and a nil error. -/
theorem getDaemonStatus_never_errors_witness :
    (GetDaemonStatus (PIDFileState.content "not-a-number") (fun _ => true)).1 =
      ⟨false, 0⟩ ∧
    (GetDaemonStatus (PIDFileState.content "not-a-number") (fun _ => true)).2.2 = none :=
  ⟨(getDaemonStatus_never_errors (PIDFileState.content "not-a-number") (fun _ => true)).2
      FileError.invalidPID (by decide),
   (getDaemonStatus_never_errors (PIDFileState.content "not-a-number") (fun _ => true)).1⟩

end Octopus
